import Mathlib

/-!
Shallow embedding of `ml-service/train_model_v2.py` (the crop-yield training
pipeline): the agronomic outlier filter, yield unit conversion, temporal and
spatial cross-validation fold construction, the metrics fallback plumbing,
the synthetic environmental/satellite backfill of `preprocess_data`, and the
copy discipline of `preprocess_data`.  Numeric data is modelled with `ℚ`; a
missing (NaN) yield is `Option.none`; a pandas DataFrame is a list of rows
plus flags recording the presence of the optional `year` / `district`
columns (the source tests presence with `'year' in df.columns`).
-/

/-- One dataset record (a DataFrame row).  Only the columns inspected by the
verified components are modelled. -/
structure Row where
  state : String := "s"
  district : String := "d"
  crop : String := "c"
  year : Int := 0
  yield? : Option ℚ := none
deriving DecidableEq, Repr

instance : Inhabited Row := ⟨{}⟩

/-- A DataFrame for the cross-validation components: rows plus presence of
the optional `year` and `district` columns. -/
structure DF where
  rows : List Row
  hasYear : Bool := true
  hasDistrict : Bool := true
deriving Repr

/-- `CROP_YIELD_LIMITS` (train_model_v2.py lines 45-60): crop-specific
(min, max) admissible yield in kg/ha, including the `default` entry. -/
def CROP_YIELD_LIMITS : List (String × ℚ × ℚ) :=
  [("rice", (500, 8000)), ("wheat", (500, 7000)), ("maize", (500, 12000)),
   ("cotton", (100, 3000)), ("sugarcane", (30000, 150000)),
   ("groundnut", (300, 4000)), ("soybean", (300, 4000)),
   ("soyabean", (300, 4000)), ("bajra", (200, 3500)), ("jowar", (200, 3500)),
   ("potato", (5000, 50000)), ("onion", (5000, 40000)),
   ("tomato", (10000, 80000)), ("default", (50, 100000))]

/-- `CROP_YIELD_LIMITS.get(crop, CROP_YIELD_LIMITS['default'])` (line 145). -/
def cropLimits (crop : String) : ℚ × ℚ :=
  match CROP_YIELD_LIMITS.find? (fun p => p.1 == crop) with
  | some p => p.2
  | none => (50, 100000)

/-- Python `str.lower()`: character-wise lowercasing. -/
def pyLower (s : String) : String := ⟨s.data.map Char.toLower⟩

/-- Python `str.strip()`: drop leading and trailing whitespace. -/
def pyStrip (s : String) : String :=
  ⟨((s.data.dropWhile Char.isWhitespace).reverse.dropWhile Char.isWhitespace).reverse⟩

/-- `is_valid_yield` (lines 137-146): the yield must be present (non-NaN),
strictly positive, and inside the crop-specific (or default) bounds; the
lookup key is `str(row[crop_col]).lower().strip()`. -/
def is_valid_yield (r : Row) : Bool :=
  let crop := pyStrip (pyLower r.crop)
  match r.yield? with
  | none => false
  | some y =>
    if y ≤ 0 then false
    else
      let limits := cropLimits crop
      decide (limits.1 ≤ y) && decide (y ≤ limits.2)

/-- `detect_agronomic_outliers` (lines 129-154): keep exactly the valid
rows, in their original order. -/
def detect_agronomic_outliers (rows : List Row) : List Row :=
  rows.filter is_valid_yield

/-- pandas `df['yield'].median()`: sort the non-null values; odd length →
middle element, even positive length → mean of the two middle elements, no
non-null values → NaN (modelled as `none`). -/
def yieldMedian? (rows : List Row) : Option ℚ :=
  let vals := (rows.filterMap Row.yield?).insertionSort (· ≤ ·)
  if vals.length = 0 then none
  else if vals.length % 2 = 1 then some (vals.getD (vals.length / 2) 0)
  else some ((vals.getD (vals.length / 2 - 1) 0 + vals.getD (vals.length / 2) 0) / 2)

/-- `preprocess_data` step 6 (lines 198-203): if the median yield is below
100 the whole yield column is multiplied by 1000 (tons/ha → kg/ha). -/
def convertYieldUnits (rows : List Row) : List Row :=
  match yieldMedian? rows with
  | some m =>
    if m < 100 then
      rows.map (fun r => { r with yield? := r.yield?.map (· * 1000) })
    else rows
  | none => rows

/-- `preprocess_data` steps 6 and 7 in source order (lines 198-206): unit
conversion first, then the agronomic outlier filter. -/
def preprocess_yield_steps (rows : List Row) : List Row :=
  detect_agronomic_outliers (convertYieldUnits rows)

/-- One recorded temporal-CV fold. -/
structure TFold where
  testYear : Int
  train : List Row
  test : List Row
deriving DecidableEq, Repr

/-- `sorted(df['year'].unique())` (line 364). -/
def sortedYears (rows : List Row) : List Int :=
  ((rows.map Row.year).dedup).insertionSort (· ≤ ·)

/-- `temporal_cv` fold construction (lines 353-395).  `none` models the two
early `return {}` paths (no year column, fewer than 3 distinct years); a
candidate fold `i` tests year `years[-(i+1)]` and trains on all rows whose
year is in `train_years = [y for y in years if y < test_year]`; the fold is
skipped (`continue`) when there are fewer than 2 training years or fewer
than 10 test rows. -/
def temporal_folds (df : DF) (n_splits : Nat) : Option (List TFold) :=
  if df.hasYear = false then none
  else
    let years := sortedYears df.rows
    if years.length < 3 then none
    else
      some ((List.range (min n_splits (years.length - 2))).filterMap (fun i =>
        let test_year := years.getD (years.length - 1 - i) 0
        let train_years := years.filter (fun y => decide (y < test_year))
        if train_years.length < 2 then none
        else
          let train := df.rows.filter (fun r => train_years.contains r.year)
          let test := df.rows.filter (fun r => r.year == test_year)
          if test.length < 10 then none
          else some ⟨test_year, train, test⟩))

/-- The `results['r2']` list of `temporal_cv`: one entry per recorded fold.
`ev` abstracts the external estimator (`model.fit` on the train rows
followed by `r2_score` on the test rows). -/
def temporal_cv (ev : List Row → List Row → ℚ) (df : DF) (n_splits : Nat) :
    Option (List ℚ) :=
  (temporal_folds df n_splits).map (List.map (fun f => ev f.train f.test))

/-- `np.argmin`: first index of the minimum of a list. -/
def argminIdx : List Nat → Nat
  | [] => 0
  | [_] => 0
  | x :: y :: l =>
    let j := argminIdx (y :: l)
    if x ≤ (y :: l).getD j 0 then 0 else j + 1

/-- The greedy loop of sklearn `GroupKFold._iter_test_indices`: given the
current per-fold loads and the group weights (in decreasing-weight order),
assign each group to the currently lightest fold; returns the fold index
chosen for each group, in order. -/
def assignAux : List Nat → List Nat → List Nat
  | _, [] => []
  | loads, w :: ws =>
    let j := argminIdx loads
    j :: assignAux (loads.set j (loads.getD j 0 + w)) ws

/-- Lexicographic comparison of character lists (kernel-evaluable model of
numpy's string ordering). -/
def charListLe : List Char → List Char → Bool
  | [], _ => true
  | _ :: _, [] => false
  | a :: as, b :: bs =>
    if a.toNat < b.toNat then true
    else if b.toNat < a.toNat then false
    else charListLe as bs

/-- Lexicographic order on strings. -/
def strLe (a b : String) : Bool := charListLe a.data b.data

/-- `np.unique(groups)`: the sorted distinct district names. -/
def unique_districts (rows : List Row) : List String :=
  ((rows.map Row.district).dedup).insertionSort (fun a b => strLe a b = true)

/-- Number of rows whose district is `g` (`np.bincount` entry). -/
def districtWeight (rows : List Row) (g : String) : Nat :=
  (rows.map Row.district).count g

/-- The distinct districts ordered by decreasing sample count
(`np.argsort(n_samples_per_group)[::-1]`, tie order modelled with a stable
sort of the name-sorted unique list). -/
def groups_by_weight (rows : List Row) : List String :=
  (unique_districts rows).insertionSort
    (fun a b => districtWeight rows b ≤ districtWeight rows a)

/-- Fold index assigned to district `g` by the `GroupKFold` greedy loop. -/
def group_to_fold (rows : List Row) (k : Nat) (g : String) : Nat :=
  let gs := groups_by_weight rows
  (assignAux (List.replicate k 0) (gs.map (districtWeight rows))).getD (gs.indexOf g) 0

/-- `spatial_cv` fold construction (lines 403-423) through sklearn
`GroupKFold`.  `none` models the `ValueError` raised by the `GroupKFold`
constructor when `min(n_splits, #districts) < 2`; that constructor call
(line 416) sits outside the `try` block, so the exception aborts the run.
Otherwise fold `f`'s test set is the set of rows of the groups assigned to
`f` and its train set is the complement (pairs of index lists into
`rows`, train first). -/
def spatial_folds (rows : List Row) (n_splits : Nat) :
    Option (List (List Nat × List Nat)) :=
  let k := min n_splits (unique_districts rows).length
  if k < 2 then none
  else
    some ((List.range k).map (fun f =>
      ((List.range rows.length).filter
         (fun i => decide (group_to_fold rows k ((rows.getD i default).district) ≠ f)),
       (List.range rows.length).filter
         (fun i => decide (group_to_fold rows k ((rows.getD i default).district) = f)))))

/-- `spatial_cv` (lines 403-438): `Except.error` = the uncaught constructor
`ValueError` (the run aborts); `Except.ok none` = the early `return {}` when
there is no district column; `Except.ok (some rs)` = the per-fold r2 list
(`ev` abstracts the estimator, as in `temporal_cv`). -/
def spatial_cv (ev : List Row → List Row → ℚ) (df : DF) (n_splits : Nat) :
    Except Unit (Option (List ℚ)) :=
  if df.hasDistrict = false then .ok none
  else
    match spatial_folds df.rows n_splits with
    | none => .error ()
    | some fs => .ok (some (fs.map (fun p =>
        ev (p.1.map (fun i => df.rows.getD i default))
           (p.2.map (fun i => df.rows.getD i default)))))

/-- `float(np.mean(results.get('r2', [r2])))` (lines 544-547): a missing
dict key (strategy returned `{}`, modelled `none`) falls back to the final
model's holdout r2; an empty recorded list gives `np.mean([]) = NaN`,
modelled as `none`; otherwise the arithmetic mean. -/
def r2_mean_with_fallback (res : Option (List ℚ)) (r2 : ℚ) : Option ℚ :=
  match res with
  | none => some r2
  | some [] => none
  | some rs => some (rs.sum / (rs.length : ℚ))

/-- The `temporal_cv_r2_mean` / `spatial_cv_r2_mean` fields of the metrics
record built by `train_production_model` (lines 523-556); the outer `none`
means the run aborted before the record was built (uncaught spatial
`ValueError`). -/
def cv_metric_fields (ev : List Row → List Row → ℚ) (df : DF) (n_splits : Nat)
    (r2 : ℚ) : Option (Option ℚ × Option ℚ) :=
  match spatial_cv ev df n_splits with
  | .error _ => none
  | .ok sres => some (r2_mean_with_fallback (temporal_cv ev df n_splits) r2,
                      r2_mean_with_fallback sres r2)

/-- The numpy global RNG, modelled as a stream of raw draws (intended in
[0,1)) plus a cursor.  `np.random.seed(k)` replaces the stream by `prng k`
and resets the cursor, where `prng` abstracts the seeded generator (a fixed
function of the seed and the draw index). -/
structure RNGState where
  stream : Nat → ℚ
  pos : Nat

/-- One `np.random.uniform(a, b)` draw. -/
def npUniform (a b : ℚ) (s : RNGState) : ℚ × RNGState :=
  (a + (b - a) * s.stream s.pos, { s with pos := s.pos + 1 })

/-- `np.random.uniform(a, b, size=n)`. -/
def npUniforms (a b : ℚ) : Nat → RNGState → List ℚ × RNGState
  | 0, s => ([], s)
  | n + 1, s =>
    let x := npUniform a b s
    let rest := npUniforms a b n x.2
    (x.1 :: rest.1, rest.2)

/-- The fixed 6-category soil-type set (line 222). -/
def soil_types : List String := ["clay", "sandy", "loamy", "black", "red", "alluvial"]

/-- `np.random.choice(opts, size=n)`: modelled as one raw draw per element,
mapped to the index `⌊u·len⌋ mod len`. -/
def npChoice (opts : List String) : Nat → RNGState → List String × RNGState
  | 0, s => ([], s)
  | n + 1, s =>
    let u := npUniform 0 1 s
    let rest := npChoice opts n u.2
    (opts.getD ((Int.toNat ⌊u.1 * (opts.length : ℚ)⌋) % opts.length) "" :: rest.1,
     rest.2)

/-- `np.random.seed(k)` (line 227). -/
def npSeed (prng : Nat → Nat → ℚ) (k : Nat) (_s : RNGState) : RNGState :=
  ⟨prng k, 0⟩

/-- The environmental/satellite columns of the working DataFrame at step 7b
of `preprocess_data` (lines 208-242); `none` = column absent. -/
structure EnvTable where
  nrows : Nat := 0
  temperature : Option (List ℚ) := none
  humidity : Option (List ℚ) := none
  soil_type : Option (List String) := none
  ndvi : Option (List ℚ) := none
  soil_moisture : Option (List ℚ) := none
  lst : Option (List ℚ) := none
deriving DecidableEq, Repr

/-- Step 7b weather backfill (lines 213-218): the branch is keyed on
`temperature` alone — `humidity` is written only inside this branch. -/
def simulate_weather (t : EnvTable) (s : RNGState) : EnvTable × RNGState :=
  if t.temperature.isNone then
    let temps := npUniforms 25 35 t.nrows s
    let hums := npUniforms 40 80 t.nrows temps.2
    ({ t with temperature := some temps.1, humidity := some hums.1 }, hums.2)
  else (t, s)

/-- Step 7b soil-type backfill (lines 220-223). -/
def simulate_soil (t : EnvTable) (s : RNGState) : EnvTable × RNGState :=
  if t.soil_type.isNone then
    let sts := npChoice soil_types t.nrows s
    ({ t with soil_type := some sts.1 }, sts.2)
  else (t, s)

/-- Step 7b satellite backfill (lines 225-242): keyed on `ndvi` alone; sets
`np.random.seed(42)` first, draws `ndvi` then `soil_moisture`, then writes
`lst` as `temperature + uniform(-2, 5)` when a temperature column exists and
as a standalone `uniform(20, 35)` otherwise. -/
def simulate_satellite (prng : Nat → Nat → ℚ) (t : EnvTable) (s : RNGState) :
    EnvTable × RNGState :=
  if t.ndvi.isNone then
    let s0 := npSeed prng 42 s
    let nd := npUniforms (3/10) (8/10) t.nrows s0
    let sm := npUniforms 15 45 t.nrows nd.2
    match t.temperature with
    | some temps =>
      let ds := npUniforms (-2) 5 t.nrows sm.2
      ({ t with ndvi := some nd.1, soil_moisture := some sm.1,
                lst := some (List.zipWith (· + ·) temps ds.1) }, ds.2)
    | none =>
      let ls := npUniforms 20 35 t.nrows sm.2
      ({ t with ndvi := some nd.1, soil_moisture := some sm.1,
                lst := some ls.1 }, ls.2)
  else (t, s)

/-- The whole of step 7b in source order: weather, then soil type, then
satellite. -/
def simulate_missing (prng : Nat → Nat → ℚ) (t : EnvTable) (s : RNGState) :
    EnvTable × RNGState :=
  let p1 := simulate_weather t s
  let p2 := simulate_soil p1.1 p1.2
  simulate_satellite prng p2.1 p2.2

/-- `simulate_satellite` with the standalone `uniform(20, 35)` branch for
`lst` pruned (it leaves `lst := none` there); equality with
`simulate_satellite` after the weather backfill is how the unreachability of
that branch is stated. -/
def simulate_satellite_pruned (prng : Nat → Nat → ℚ) (t : EnvTable)
    (s : RNGState) : EnvTable × RNGState :=
  if t.ndvi.isNone then
    let s0 := npSeed prng 42 s
    let nd := npUniforms (3/10) (8/10) t.nrows s0
    let sm := npUniforms 15 45 t.nrows nd.2
    match t.temperature with
    | some temps =>
      let ds := npUniforms (-2) 5 t.nrows sm.2
      ({ t with ndvi := some nd.1, soil_moisture := some sm.1,
                lst := some (List.zipWith (· + ·) temps ds.1) }, ds.2)
    | none =>
      let ls := npUniforms 20 35 t.nrows sm.2
      ({ t with ndvi := some nd.1, soil_moisture := some sm.1,
                lst := none }, ls.2)
  else (t, s)

/-- `simulate_missing` built on the pruned satellite step. -/
def simulate_missing_pruned (prng : Nat → Nat → ℚ) (t : EnvTable)
    (s : RNGState) : EnvTable × RNGState :=
  let p1 := simulate_weather t s
  let p2 := simulate_soil p1.1 p1.2
  simulate_satellite_pruned prng p2.1 p2.2

/-- Python object heap for the frame-effect claim: DataFrame objects
addressed by id. -/
abbrev Store := List (List Row)

/-- An in-place pandas mutation of object `i` (`df.columns = ...`,
`df[col] = ...`, `df['yield'] = df['yield'] * 1000`, ...). -/
def mutateAt (s : Store) (i : Nat) (f : List Row → List Row) : Store :=
  s.set i (f (s.getD i []))

/-- The object discipline of `preprocess_data` (lines 157-312):
`df = df.copy()` (line 166) allocates a fresh object; steps 1-6 mutate that
copy in place; `df = detect_agronomic_outliers(df)` (line 206) rebinds `df`
to a new filtered object (built via `.copy()` at line 148) after the unit
conversion; steps 7b-10 mutate the new object in place.  The in-place step
bodies are abstracted as arbitrary row-list transformations (`steps1` for
steps 1-5, `steps2` for steps 7b-10), since the claim is about which object
they are applied to, not what they compute. -/
def preprocess_data_objects (steps1 steps2 : List (List Row → List Row))
    (s : Store) (i : Nat) : Store × Nat :=
  let j := s.length
  let s1 := s ++ [s.getD i []]
  let s2 := steps1.foldl (fun st f => mutateAt st j f) s1
  let k := s2.length
  let s3 := s2 ++ [detect_agronomic_outliers (convertYieldUnits (s2.getD j []))]
  let s4 := steps2.foldl (fun st f => mutateAt st k f) s3
  (s4, k)

/-- Spec-side retention predicate, written from the specification's words:
yield present, strictly positive, and within the (min, max) bounds obtained
by lower-cased crop-name lookup in `CROP_YIELD_LIMITS`, falling back to the
default bound (50, 100000) for unknown crop names.  (Both the source and the
spec's surrounding context canonicalize the crop string, so the lookup key
is the lower-cased, whitespace-trimmed crop name.) -/
def outlierSpecValid (r : Row) : Bool :=
  match r.yield? with
  | none => false
  | some y =>
    let lim := cropLimits (pyStrip (pyLower r.crop))
    decide (0 < y) && decide (lim.1 ≤ y) && decide (y ≤ lim.2)

/-- A row carrying only a year. -/
def rowY (y : Int) : Row := { year := y }

/-- Trivial estimator used to instantiate the abstract `ev` parameter in
concrete evaluations. -/
def ev0 : List Row → List Row → ℚ := fun _ _ => 0

/-- 2 training years and ten 2020 test rows: records one temporal fold. -/
def dfC1 : DF := { rows := [rowY 2018, rowY 2019] ++ List.replicate 10 (rowY 2020) }

/-- The fold recorded for `dfC1`. -/
def foldC1 : TFold :=
  { testYear := 2020, train := [rowY 2018, rowY 2019],
    test := List.replicate 10 (rowY 2020) }

/-- Two districts and three distinct years, one row per year: the only
temporal candidate fold is skipped (fewer than 10 test rows), while spatial
CV runs with 2 folds. -/
def dfC5 : DF :=
  { rows := [{ year := 2018, district := "a" }, { year := 2019, district := "b" },
             { year := 2020, district := "a" }] }

/-- Years 2018-2021, with ten rows for each of 2020 and 2021. -/
def dfC7 : DF :=
  { rows := [rowY 2018, rowY 2019] ++ List.replicate 10 (rowY 2020) ++
            List.replicate 10 (rowY 2021) }

/-- A table that has a temperature column but no humidity column (all
satellite columns present, so only the weather branch is relevant). -/
def envC4 : EnvTable :=
  { nrows := 1, temperature := some [30], humidity := none,
    soil_type := some ["clay"], ndvi := some [1/2],
    soil_moisture := some [20], lst := some [30] }

/-- A one-row table with every environmental column absent. -/
def envC8 : EnvTable := { nrows := 1 }

/-- A degenerate seeded-generator model: every draw is 0. -/
def prng0 : Nat → Nat → ℚ := fun _ _ => 0

/-- Global RNG state whose raw draws are all 0. -/
def rng0 : RNGState := ⟨fun _ => 0, 0⟩

/-- Global RNG state whose raw draws are all 1/2. -/
def rngHalf : RNGState := ⟨fun _ => 1/2, 0⟩

/-! ### Theorems -/

lemma is_valid_yield_eq_spec (r : Row) : is_valid_yield r = outlierSpecValid r := by
  unfold is_valid_yield outlierSpecValid
  cases r.yield? with
  | none => rfl
  | some y =>
    by_cases hy : y ≤ 0
    · have h0 : ¬(0 < y) := not_lt.mpr hy
      simp [hy, h0]
    · have h0 : (0 < y) := lt_of_not_ge hy
      simp [hy, h0]

/-- C3: the outlier filter retains a record iff its yield is present,
strictly positive, and within the (min, max) bounds obtained by lower-cased
crop-name lookup in `CROP_YIELD_LIMITS` (default bound (50, 100000) for
unknown crops); the output is the retained subsequence in original order;
a "rice"/9000 record is dropped while a "rice"/5000 record is kept. -/
theorem detect_agronomic_outliers_spec :
    (∀ rows : List Row, detect_agronomic_outliers rows = rows.filter outlierSpecValid) ∧
    detect_agronomic_outliers
      [{ crop := "rice", yield? := some 9000 }, { crop := "rice", yield? := some 5000 }] =
      [{ crop := "rice", yield? := some 5000 }] := by
  constructor
  · intro rows
    unfold detect_agronomic_outliers
    exact List.filter_congr (fun r _ => is_valid_yield_eq_spec r)
  · decide

/-- C6: unit normalization precedes outlier filtering — when the median
yield is below 100 every yield is multiplied by 1000 before any
bound-checking, and otherwise yields reach the filter unchanged; in a
median-45 table a raw yield of 4.5 is evaluated against the crop bounds as
4500 (retained for rice). -/
theorem yield_conversion_precedes_filter :
    (∀ (rows : List Row) (m : ℚ), yieldMedian? rows = some m → m < 100 →
      preprocess_yield_steps rows =
        detect_agronomic_outliers
          (rows.map (fun r => { r with yield? := r.yield?.map (· * 1000) }))) ∧
    (∀ rows : List Row, (∀ m : ℚ, yieldMedian? rows = some m → 100 ≤ m) →
      preprocess_yield_steps rows = detect_agronomic_outliers rows) ∧
    (yieldMedian? [{ crop := "rice", yield? := some (9/2) },
                   { crop := "rice", yield? := some 45 },
                   { crop := "rice", yield? := some 90 }] = some 45 ∧
     preprocess_yield_steps
       [{ crop := "rice", yield? := some (9/2) },
        { crop := "rice", yield? := some 45 },
        { crop := "rice", yield? := some 90 }] =
       [{ crop := "rice", yield? := some 4500 }]) := by
  have hmed : yieldMedian? [{ crop := "rice", yield? := some (9/2) },
      { crop := "rice", yield? := some 45 },
      { crop := "rice", yield? := some 90 }] = some 45 := by
    norm_num [yieldMedian?, List.insertionSort, List.orderedInsert]
  refine ⟨?_, ?_, hmed, ?_⟩
  · intro rows m hm hlt
    unfold preprocess_yield_steps convertYieldUnits
    rw [hm]
    simp [hlt]
  · intro rows hge
    unfold preprocess_yield_steps convertYieldUnits
    cases h : yieldMedian? rows with
    | none => rfl
    | some m =>
      have := hge m h
      simp [not_lt.mpr this]
  · have hconv : convertYieldUnits [{ crop := "rice", yield? := some (9/2) },
        { crop := "rice", yield? := some 45 },
        { crop := "rice", yield? := some 90 }] =
        [{ crop := "rice", yield? := some 4500 },
         { crop := "rice", yield? := some 45000 },
         { crop := "rice", yield? := some 90000 }] := by
      unfold convertYieldUnits
      rw [hmed]
      norm_num
    unfold preprocess_yield_steps
    rw [hconv]
    decide

/-- Witness: `yield_conversion_precedes_filter` applied at a median-45 table
(conversion branch) and at a median-150 table (unchanged branch). -/
theorem yield_conversion_precedes_filter_witness :
    yieldMedian? [({ yield? := some 45 } : Row)] = some 45 ∧ (45:ℚ) < 100 ∧
    preprocess_yield_steps [({ yield? := some 45 } : Row)] =
      detect_agronomic_outliers
        ([({ yield? := some 45 } : Row)].map
          (fun r => { r with yield? := r.yield?.map (· * 1000) })) ∧
    preprocess_yield_steps [({ yield? := some 150 } : Row)] =
      detect_agronomic_outliers [({ yield? := some 150 } : Row)] :=
  ⟨by decide, by decide,
   yield_conversion_precedes_filter.1 [{ yield? := some 45 }] 45 (by decide) (by decide),
   yield_conversion_precedes_filter.2.1 [{ yield? := some 150 }]
     (fun m h => by
        rw [show yieldMedian? [({ yield? := some 150 } : Row)] = some 150 from by decide] at h
        cases h
        norm_num)⟩

/-- C1: every recorded temporal-CV fold trains only on rows whose year is
strictly before the fold's test year, and tests only on rows of exactly the
test year (no future leakage). -/
theorem temporal_cv_no_future_leakage (df : DF) (n_splits : Nat)
    (fs : List TFold) (hfs : temporal_folds df n_splits = some fs)
    (f : TFold) (hf : f ∈ fs) :
    (∀ r ∈ f.train, r.year < f.testYear) ∧ (∀ r ∈ f.test, r.year = f.testYear) := by
  simp only [temporal_folds] at hfs
  split at hfs
  · exact absurd hfs (by simp)
  · split at hfs
    · exact absurd hfs (by simp)
    · rw [Option.some.injEq] at hfs
      subst hfs
      rcases List.mem_filterMap.mp hf with ⟨i, _hi, hgi⟩
      split at hgi
      · exact absurd hgi (by simp)
      · split at hgi
        · exact absurd hgi (by simp)
        · rw [Option.some.injEq] at hgi
          subst hgi
          constructor
          · intro r hr
            rcases List.mem_filter.mp hr with ⟨_, hcont⟩
            have hmem := List.mem_of_elem_eq_true hcont
            rcases List.mem_filter.mp hmem with ⟨_, hlt⟩
            exact of_decide_eq_true hlt
          · intro r hr
            rcases List.mem_filter.mp hr with ⟨_, heq⟩
            exact eq_of_beq heq

/-- Witness: the single recorded fold of `dfC1` (test year 2020) satisfies
the no-future-leakage property. -/
theorem temporal_cv_no_future_leakage_witness :
    temporal_folds dfC1 5 = some [foldC1] ∧ foldC1 ∈ [foldC1] ∧
    ((∀ r ∈ foldC1.train, r.year < foldC1.testYear) ∧
     (∀ r ∈ foldC1.test, r.year = foldC1.testYear)) :=
  ⟨by decide, by decide,
   temporal_cv_no_future_leakage dfC1 5 [foldC1] (by decide) foldC1 (by decide)⟩

/-- C7: temporal fold structure.  With a year column: fewer than 3 distinct
years give no folds; otherwise at most `min(n_splits, |Y|-2)` folds are
recorded, every recorded fold's test year is a backward-walking candidate
`Y[-(i+1)]` with `i < min(n_splits, |Y|-2)`, and a fold is recorded only if
at least 2 distinct training years and at least 10 test rows remain.  On
years {2018..2021} with `n_splits = 5` exactly the candidates 2021 and 2020
are recorded (in that order). -/
theorem temporal_cv_fold_structure :
    (∀ (df : DF) (n_splits : Nat), df.hasYear = true →
      (((sortedYears df.rows).length < 3 → temporal_folds df n_splits = none) ∧
       (3 ≤ (sortedYears df.rows).length →
         ∃ fs, temporal_folds df n_splits = some fs ∧
           fs.length ≤ min n_splits ((sortedYears df.rows).length - 2) ∧
           ∀ f ∈ fs,
             (∃ i, i < min n_splits ((sortedYears df.rows).length - 2) ∧
                f.testYear = (sortedYears df.rows).getD
                  ((sortedYears df.rows).length - 1 - i) 0) ∧
             2 ≤ ((sortedYears df.rows).filter
                    (fun y => decide (y < f.testYear))).length ∧
             10 ≤ f.test.length))) ∧
    (temporal_folds dfC7 5).map (List.map TFold.testYear) = some [2021, 2020] := by
  constructor
  · intro df n_splits h
    constructor
    · intro h3
      simp [temporal_folds, h, h3]
    · intro h3
      cases hres : temporal_folds df n_splits with
      | none =>
        exfalso
        simp [temporal_folds, h, not_lt.mpr h3] at hres
      | some fs =>
        refine ⟨fs, rfl, ?_, ?_⟩
        · have hres' := hres
          simp only [temporal_folds] at hres'
          split at hres'
          · exact absurd hres' (by simp)
          · split at hres'
            · exact absurd hres' (by simp)
            · rw [Option.some.injEq] at hres'
              subst hres'
              calc (List.filterMap _ _).length ≤ _ := List.length_filterMap_le _ _
                _ = _ := List.length_range _
        · intro f hf
          have hres' := hres
          simp only [temporal_folds] at hres'
          split at hres'
          · exact absurd hres' (by simp)
          · split at hres'
            · exact absurd hres' (by simp)
            · rw [Option.some.injEq] at hres'
              subst hres'
              rcases List.mem_filterMap.mp hf with ⟨i, hi, hgi⟩
              split at hgi
              · exact absurd hgi (by simp)
              · split at hgi
                · exact absurd hgi (by simp)
                · rw [Option.some.injEq] at hgi
                  subst hgi
                  refine ⟨⟨i, List.mem_range.mp hi, rfl⟩, ?_, ?_⟩
                  · exact not_lt.mp (by assumption)
                  · exact not_lt.mp (by assumption)
  · decide

/-- Witness: `temporal_cv_fold_structure` applied to `dfC7` (years
2018-2021, n_splits = 5). -/
theorem temporal_cv_fold_structure_witness :
    dfC7.hasYear = true ∧
    3 ≤ (sortedYears dfC7.rows).length ∧
    (∃ fs, temporal_folds dfC7 5 = some fs ∧
      fs.length ≤ min 5 ((sortedYears dfC7.rows).length - 2) ∧
      ∀ f ∈ fs,
        (∃ i, i < min 5 ((sortedYears dfC7.rows).length - 2) ∧
           f.testYear = (sortedYears dfC7.rows).getD
             ((sortedYears dfC7.rows).length - 1 - i) 0) ∧
        2 ≤ ((sortedYears dfC7.rows).filter
               (fun y => decide (y < f.testYear))).length ∧
        10 ≤ f.test.length) :=
  ⟨rfl, by decide, (temporal_cv_fold_structure.1 dfC7 5 rfl).2 (by decide)⟩

/-- C4 counterexample: an input with a temperature column but no humidity
column leaves humidity unsynthesized (the weather backfill is keyed on
`temperature` alone), refuting per-column independence of the backfill. -/
theorem backfill_humidity_gap :
    envC4.humidity = none ∧ envC4.temperature.isSome = true ∧
    (simulate_missing prng0 envC4 rng0).1.humidity = none := by
  refine ⟨rfl, rfl, ?_⟩
  rfl

/-- C4 (amended): after the backfill, temperature, soil_type and ndvi are
always present, but humidity is present iff it was present or temperature
was absent in the input, and soil_moisture / lst are present iff they were
present or ndvi was absent in the input — the three backfill branches are
keyed on temperature, soil_type and ndvi respectively, not on each column
independently. -/
theorem backfill_presence (prng : Nat → Nat → ℚ) (t : EnvTable) (s : RNGState) :
    ((simulate_missing prng t s).1.temperature.isSome = true) ∧
    ((simulate_missing prng t s).1.soil_type.isSome = true) ∧
    ((simulate_missing prng t s).1.ndvi.isSome = true) ∧
    ((simulate_missing prng t s).1.humidity.isSome =
       (t.humidity.isSome || t.temperature.isNone)) ∧
    ((simulate_missing prng t s).1.soil_moisture.isSome =
       (t.soil_moisture.isSome || t.ndvi.isNone)) ∧
    ((simulate_missing prng t s).1.lst.isSome = (t.lst.isSome || t.ndvi.isNone)) := by
  unfold simulate_missing simulate_weather simulate_soil simulate_satellite
  cases ht : t.temperature <;> cases hst : t.soil_type <;> cases hn : t.ndvi <;>
    simp [ht, hst, hn]

/-- C9: when the satellite backfill computes `lst`, a temperature column is
always present (either from the input or from the immediately preceding
weather backfill), so `lst` is always `temperature + uniform(-2, 5)`: the
standalone `uniform(20, 35)` branch is unreachable — pruning it does not
change `simulate_missing` on any input. -/
theorem lst_always_from_temperature (prng : Nat → Nat → ℚ) (t : EnvTable)
    (s : RNGState) :
    ((simulate_soil (simulate_weather t s).1
        (simulate_weather t s).2).1.temperature.isSome = true) ∧
    simulate_missing prng t s = simulate_missing_pruned prng t s := by
  constructor
  · unfold simulate_weather simulate_soil
    cases ht : t.temperature <;> cases hst : t.soil_type <;> simp [ht, hst]
  · unfold simulate_missing simulate_missing_pruned simulate_weather
      simulate_soil simulate_satellite simulate_satellite_pruned
    cases ht : t.temperature <;> cases hst : t.soil_type <;> cases hn : t.ndvi <;>
      simp [ht, hst, hn]

/-- C8 counterexample: the weather draws precede `np.random.seed(42)` and
use the unseeded global RNG state, so two runs of the backfill on the same
table from different initial RNG states synthesize different temperature
columns (here [25] versus [30]). -/
theorem backfill_not_two_run_deterministic :
    (simulate_missing prng0 envC8 rng0).1.temperature = some [25] ∧
    (simulate_missing prng0 envC8 rngHalf).1.temperature = some [30] := by
  constructor <;>
  · simp only [simulate_missing, simulate_weather, simulate_soil,
      simulate_satellite, npUniforms, npUniform, npSeed, envC8, rng0, rngHalf,
      prng0, Option.isNone_none, if_true, Option.isNone_some]
    norm_num

/-- C8 (amended): only the seeded satellite draws are reproducible — the
`ndvi` and `soil_moisture` columns produced by the backfill are identical
across two runs from any two initial RNG states (seed 42 is set immediately
before their draws), whereas temperature, humidity and soil_type are drawn
from the unseeded global state (see the counterexample). -/
theorem backfill_satellite_reproducible (prng : Nat → Nat → ℚ) (t : EnvTable)
    (s1 s2 : RNGState) :
    (simulate_missing prng t s1).1.ndvi = (simulate_missing prng t s2).1.ndvi ∧
    (simulate_missing prng t s1).1.soil_moisture =
      (simulate_missing prng t s2).1.soil_moisture := by
  unfold simulate_missing simulate_weather simulate_soil simulate_satellite npSeed
  cases ht : t.temperature <;> cases hst : t.soil_type <;> cases hn : t.ndvi <;>
    simp [ht, hst, hn]

lemma mutateAt_length (s : Store) (j : Nat) (f : List Row → List Row) :
    (mutateAt s j f).length = s.length := by
  unfold mutateAt
  exact List.length_set ..

lemma getD_mutateAt_ne (s : Store) (i j : Nat) (hij : i ≠ j)
    (f : List Row → List Row) : (mutateAt s j f).getD i [] = s.getD i [] := by
  unfold mutateAt
  rw [List.getD_eq_getElem?_getD, List.getElem?_set_ne (fun h => hij h.symm),
    List.getD_eq_getElem?_getD]

lemma foldl_mutateAt_length (fs : List (List Row → List Row)) (j : Nat) :
    ∀ st : Store, (fs.foldl (fun st f => mutateAt st j f) st).length = st.length := by
  induction fs with
  | nil => intro st; rfl
  | cons f fs ih => intro st; rw [List.foldl_cons, ih, mutateAt_length]

lemma foldl_mutateAt_getD_ne (fs : List (List Row → List Row)) (i j : Nat)
    (hij : i ≠ j) : ∀ st : Store,
    (fs.foldl (fun st f => mutateAt st j f) st).getD i [] = st.getD i [] := by
  induction fs with
  | nil => intro st; rfl
  | cons f fs ih => intro st; rw [List.foldl_cons, ih, getD_mutateAt_ne _ _ _ hij]

lemma getD_append_sing (s : Store) (x : List Row) (i : Nat) (hi : i < s.length) :
    (s ++ [x]).getD i [] = s.getD i [] := by
  rw [List.getD_eq_getElem?_getD, List.getElem?_append_left hi,
    List.getD_eq_getElem?_getD]

/-- C10: `preprocess_data` operates on a copy of its argument — for every
heap, every caller object id, and arbitrary in-place step bodies, the
caller's DataFrame object is unchanged by the whole preprocessing stage. -/
theorem preprocess_data_preserves_caller
    (steps1 steps2 : List (List Row → List Row)) (s : Store) (i : Nat)
    (hi : i < s.length) :
    ((preprocess_data_objects steps1 steps2 s i).1).getD i [] = s.getD i [] := by
  simp only [preprocess_data_objects]
  have h1 : (s ++ [s.getD i []]).length = s.length + 1 := by simp
  have hlen2 : (steps1.foldl (fun st f => mutateAt st (s.length) f)
      (s ++ [s.getD i []])).length = s.length + 1 := by
    rw [foldl_mutateAt_length, h1]
  rw [foldl_mutateAt_getD_ne steps2 i _ (by rw [hlen2]; omega),
    getD_append_sing _ _ _ (by rw [hlen2]; omega),
    foldl_mutateAt_getD_ne steps1 i _ (by omega),
    getD_append_sing _ _ _ hi]

/-- Witness: `preprocess_data_preserves_caller` on a one-object heap with
concrete step bodies. -/
theorem preprocess_data_preserves_caller_witness :
    (0 : Nat) < ([[{ crop := "rice", yield? := some 600 }]] : Store).length ∧
    ((preprocess_data_objects [detect_agronomic_outliers] [List.reverse]
        [[{ crop := "rice", yield? := some 600 }]] 0).1).getD 0 [] =
      ([[{ crop := "rice", yield? := some 600 }]] : Store).getD 0 [] :=
  ⟨by decide,
   preprocess_data_preserves_caller [detect_agronomic_outliers] [List.reverse]
     [[{ crop := "rice", yield? := some 600 }]] 0 (by decide)⟩

/-- C5 counterexample: on a table with 3 distinct years (one row each, so
the only temporal candidate fold is skipped) and 2 districts, `temporal_cv`
returns an empty per-fold list, and the recorded `temporal_cv_r2_mean` is
`np.mean([]) = NaN` (modelled `none`) — not the holdout r2 (here 7) the
claim prescribes; the run continues (the metrics record is produced). -/
theorem cv_fallback_gap :
    temporal_cv ev0 dfC5 5 = some [] ∧
    (cv_metric_fields ev0 dfC5 5 7).map Prod.fst = some none ∧
    some (7:ℚ) ≠ none :=
  ⟨by decide, by decide, by decide⟩

/-- C5 (amended): the holdout-r2 fallback applies exactly when a strategy
returns an empty dict — temporal: no year column or fewer than 3 distinct
years; spatial: no district column.  When every temporal candidate fold is
skipped the recorded list is empty and the mean is NaN (`none`), not the
holdout r2. -/
theorem cv_fallback_characterization (ev : List Row → List Row → ℚ) (df : DF)
    (n_splits : Nat) (r2 : ℚ) :
    (df.hasYear = false →
      r2_mean_with_fallback (temporal_cv ev df n_splits) r2 = some r2) ∧
    ((sortedYears df.rows).length < 3 →
      r2_mean_with_fallback (temporal_cv ev df n_splits) r2 = some r2) ∧
    (temporal_cv ev df n_splits = some [] →
      r2_mean_with_fallback (temporal_cv ev df n_splits) r2 = none) ∧
    (df.hasDistrict = false →
      spatial_cv ev df n_splits = .ok none ∧
      cv_metric_fields ev df n_splits r2 =
        some (r2_mean_with_fallback (temporal_cv ev df n_splits) r2, some r2)) := by
  refine ⟨?_, ?_, ?_, ?_⟩
  · intro h
    simp [temporal_cv, temporal_folds, h, r2_mean_with_fallback]
  · intro h3
    simp [temporal_cv, temporal_folds, h3, r2_mean_with_fallback]
  · intro h
    rw [h]
    rfl
  · intro h
    constructor
    · simp [spatial_cv, h]
    · simp [cv_metric_fields, spatial_cv, h, r2_mean_with_fallback]

/-- Witness: `cv_fallback_characterization` discharged at concrete inputs —
a no-year-column table, a too-few-years table, the all-folds-skipped table
`dfC5`, and a no-district-column table. -/
theorem cv_fallback_characterization_witness :
    r2_mean_with_fallback (temporal_cv ev0 ⟨[], false, true⟩ 5) (3:ℚ) = some 3 ∧
    r2_mean_with_fallback (temporal_cv ev0 ⟨[rowY 2018], true, true⟩ 5) (3:ℚ) = some 3 ∧
    r2_mean_with_fallback (temporal_cv ev0 dfC5 5) (3:ℚ) = none ∧
    spatial_cv ev0 ⟨[], true, false⟩ 5 = .ok none :=
  ⟨(cv_fallback_characterization ev0 ⟨[], false, true⟩ 5 3).1 rfl,
   (cv_fallback_characterization ev0 ⟨[rowY 2018], true, true⟩ 5 3).2.1 (by decide),
   (cv_fallback_characterization ev0 dfC5 5 3).2.2.1 (by decide),
   ((cv_fallback_characterization ev0 ⟨[], true, false⟩ 5 3).2.2.2 rfl).1⟩

lemma argminIdx_cons (x : Nat) (L : List Nat) (h : L ≠ []) :
    argminIdx (x :: L) =
      if x ≤ L.getD (argminIdx L) 0 then 0 else argminIdx L + 1 := by
  cases L with
  | nil => exact absurd rfl h
  | cons y l => rfl

lemma argminIdx_lt : ∀ (l : List Nat), l ≠ [] → argminIdx l < l.length
  | [], h => absurd rfl h
  | [_], _ => by simp [argminIdx]
  | x :: y :: l, _ => by
    rw [argminIdx_cons x (y :: l) (by simp)]
    split
    · simp
    · have := argminIdx_lt (y :: l) (by simp)
      simpa using Nat.succ_lt_succ this

lemma getD_append_len : ∀ (l1 : List Nat) (a : Nat) (r : List Nat),
    (l1 ++ a :: r).getD l1.length 0 = a
  | [], _, _ => rfl
  | x :: l1, a, r => by simpa using getD_append_len l1 a r

lemma set_append_len : ∀ (l1 : List Nat) (a : Nat) (r : List Nat) (b : Nat),
    (l1 ++ a :: r).set l1.length b = l1 ++ b :: r
  | [], _, _, _ => rfl
  | x :: l1, a, r, b => by
    simp [set_append_len l1 a r b]

lemma argminIdx_pos_prefix : ∀ (l1 : List Nat) (r : List Nat),
    (∀ x ∈ l1, 0 < x) → argminIdx (l1 ++ 0 :: r) = l1.length
  | [], r, _ => by
    cases r with
    | nil => rfl
    | cons y l => simp [argminIdx_cons 0 (y :: l) (by simp)]
  | x :: l1, r, h => by
    have hne : l1 ++ 0 :: r ≠ [] := by simp
    rw [List.cons_append, argminIdx_cons x _ hne,
      argminIdx_pos_prefix l1 r (fun z hz => h z (List.mem_cons_of_mem _ hz)),
      getD_append_len]
    have hx : 0 < x := h x (List.mem_cons_self _ _)
    rw [if_neg (by omega)]
    simp

lemma assignAux_length : ∀ (ws loads : List Nat),
    (assignAux loads ws).length = ws.length
  | [], _ => rfl
  | w :: ws, loads => by
    simp [assignAux, assignAux_length ws]

lemma assignAux_lt : ∀ (ws loads : List Nat), loads ≠ [] →
    ∀ a ∈ assignAux loads ws, a < loads.length
  | [], _, _, _, ha => absurd ha (by simp [assignAux])
  | w :: ws, loads, h, a, ha => by
    rw [assignAux] at ha
    rcases List.mem_cons.mp ha with h1 | h2
    · subst h1
      exact argminIdx_lt loads h
    · have hlen : (loads.set (argminIdx loads)
          (loads.getD (argminIdx loads) 0 + w)).length = loads.length :=
        List.length_set ..
      have hne : loads.set (argminIdx loads)
          (loads.getD (argminIdx loads) 0 + w) ≠ [] := by
        intro hc
        apply h
        have := congrArg List.length hc
        rw [hlen] at this
        exact List.length_eq_zero.mp this
      have := assignAux_lt ws _ hne a h2
      rwa [hlen] at this

lemma assign_prefix : ∀ (m : Nat) (ws l1 : List Nat),
    (∀ x ∈ l1, 0 < x) → (∀ w ∈ ws, 0 < w) → m ≤ ws.length →
    ∀ f, f < m → l1.length + f ∈ assignAux (l1 ++ List.replicate m 0) ws := by
  intro m
  induction m with
  | zero => intro ws l1 _ _ _ f hf; omega
  | succ m ih =>
    intro ws l1 h1 hw hm f hf
    cases ws with
    | nil => simp at hm
    | cons w ws =>
      rw [List.replicate_succ, assignAux,
        argminIdx_pos_prefix l1 (List.replicate m 0) h1]
      have hset : (l1 ++ 0 :: List.replicate m 0).set l1.length
          ((l1 ++ 0 :: List.replicate m 0).getD l1.length 0 + w) =
          l1 ++ (0 + w) :: List.replicate m 0 := by
        rw [getD_append_len, set_append_len]
      rw [hset]
      cases f with
      | zero => exact List.mem_cons_self _ _
      | succ f =>
        have harr : l1 ++ (0 + w) :: List.replicate m 0 =
            (l1 ++ [0 + w]) ++ List.replicate m 0 := by simp
        have hpos1 : ∀ x ∈ l1 ++ [0 + w], 0 < x := by
          intro x hx
          rcases List.mem_append.mp hx with h | h
          · exact h1 x h
          · rcases List.mem_singleton.mp h with rfl
            have := hw w (List.mem_cons_self _ _)
            omega
        have hw' : ∀ v ∈ ws, 0 < v := fun v hv => hw v (List.mem_cons_of_mem _ hv)
        have hm' : m ≤ ws.length := by
          simp only [List.length_cons] at hm
          omega
        have hmem := ih ws (l1 ++ [0 + w]) hpos1 hw' hm' f (by omega)
        rw [harr]
        have hlen : (l1 ++ [0 + w]).length = l1.length + 1 := by simp
        rw [hlen] at hmem
        refine List.mem_cons_of_mem _ ?_
        have heq : l1.length + (f + 1) = l1.length + 1 + f := by omega
        rw [heq]
        exact hmem

lemma mem_groups_by_weight_iff (rows : List Row) (g : String) :
    g ∈ groups_by_weight rows ↔ g ∈ rows.map Row.district := by
  unfold groups_by_weight unique_districts
  rw [(List.perm_insertionSort _ _).mem_iff, (List.perm_insertionSort _ _).mem_iff,
    List.mem_dedup]

lemma groups_by_weight_nodup (rows : List Row) : (groups_by_weight rows).Nodup := by
  unfold groups_by_weight unique_districts
  exact ((List.perm_insertionSort _ _).nodup_iff).mpr
    (((List.perm_insertionSort _ _).nodup_iff).mpr (List.nodup_dedup _))

lemma groups_by_weight_length (rows : List Row) :
    (groups_by_weight rows).length = (unique_districts rows).length :=
  (List.perm_insertionSort _ _).length_eq

lemma group_to_fold_lt (rows : List Row) (k : Nat) (hk : 0 < k) (g : String) :
    group_to_fold rows k g < k := by
  simp only [group_to_fold]
  have hrep : (List.replicate k 0 : List Nat) ≠ [] := by
    simp [List.replicate_eq_nil_iff]
    omega
  by_cases h : (groups_by_weight rows).indexOf g <
      (assignAux (List.replicate k 0)
        ((groups_by_weight rows).map (districtWeight rows))).length
  · rw [List.getD_eq_getElem _ _ h]
    have hmem := List.getElem_mem h
    have := assignAux_lt _ _ hrep _ hmem
    simpa using this
  · rw [List.getD_eq_default _ _ (not_lt.mp h)]
    exact hk

lemma exists_group_with_fold (rows : List Row) (k : Nat)
    (hk : k ≤ (unique_districts rows).length) (f : Nat) (hf : f < k) :
    ∃ g ∈ groups_by_weight rows, group_to_fold rows k g = f := by
  have hwpos : ∀ w ∈ (groups_by_weight rows).map (districtWeight rows), 0 < w := by
    intro w hw
    rcases List.mem_map.mp hw with ⟨g, hg, rfl⟩
    have hg4 : g ∈ rows.map Row.district := (mem_groups_by_weight_iff rows g).mp hg
    unfold districtWeight
    exact List.count_pos_iff.mpr hg4
  have hklen : k ≤ ((groups_by_weight rows).map (districtWeight rows)).length := by
    rw [List.length_map, groups_by_weight_length]
    exact hk
  have hmem := assign_prefix k ((groups_by_weight rows).map (districtWeight rows))
    [] (by simp) hwpos hklen f hf
  simp only [List.nil_append, List.length_nil, Nat.zero_add] at hmem
  rcases List.mem_iff_getElem.mp hmem with ⟨p, hp, hval⟩
  have hplen : p < (groups_by_weight rows).length := by
    rw [assignAux_length, List.length_map] at hp
    exact hp
  refine ⟨(groups_by_weight rows)[p], List.getElem_mem hplen, ?_⟩
  simp only [group_to_fold]
  rw [List.indexOf_getElem (groups_by_weight_nodup rows) p hplen,
    List.getD_eq_getElem _ _ hp]
  exact hval

/-- C2 counterexample: a dataset with a district column but a single
district makes `GroupKFold(n_splits=min(5, 1))` raise at construction,
outside the `try` block — `spatial_cv` produces no folds at all and the run
aborts, so the claimed partition does not exist for every dataset with a
district column. -/
theorem spatial_cv_single_district_aborts :
    spatial_folds [{ district := "a" }] 5 = none ∧
    spatial_cv ev0 { rows := [{ district := "a" }] } 5 = .error () :=
  ⟨rfl, rfl⟩

/-- C2 (amended): for every dataset with at least 2 distinct districts (and
n_splits ≥ 2), `spatial_cv` partitions the row indices into exactly
`min(n_splits, #districts)` nonempty test folds — every row lies in exactly
one test fold — and in every fold the train-side districts are disjoint
from the test-side districts; with fewer than 2 distinct districts the
`GroupKFold` constructor raises and the run aborts (see counterexample). -/
theorem spatial_cv_group_disjoint (rows : List Row) (n_splits : Nat)
    (hn : 2 ≤ n_splits) (hd : 2 ≤ (unique_districts rows).length) :
    ∃ fs, spatial_folds rows n_splits = some fs ∧
      fs.length = min n_splits (unique_districts rows).length ∧
      (∀ p ∈ fs, ∀ i ∈ p.1, ∀ j ∈ p.2,
        (rows.getD i default).district ≠ (rows.getD j default).district) ∧
      (∀ i, i < rows.length → fs.countP (fun p => decide (i ∈ p.2)) = 1) ∧
      (∀ p ∈ fs, p.2 ≠ []) := by
  have hk2 : 2 ≤ min n_splits (unique_districts rows).length := le_min hn hd
  have hfolds : spatial_folds rows n_splits =
      some ((List.range (min n_splits (unique_districts rows).length)).map (fun f =>
        ((List.range rows.length).filter
           (fun i => decide (group_to_fold rows
             (min n_splits (unique_districts rows).length)
             ((rows.getD i default).district) ≠ f)),
         (List.range rows.length).filter
           (fun i => decide (group_to_fold rows
             (min n_splits (unique_districts rows).length)
             ((rows.getD i default).district) = f))))) := by
    simp only [spatial_folds]
    rw [if_neg (not_lt.mpr hk2)]
  refine ⟨_, hfolds, by simp, ?_, ?_, ?_⟩
  · intro p hp i hi j hj
    rcases List.mem_map.mp hp with ⟨f, _hf, rfl⟩
    rcases List.mem_filter.mp hi with ⟨_, hine⟩
    rcases List.mem_filter.mp hj with ⟨_, hjeq⟩
    have h1 := of_decide_eq_true hine
    have h2 := of_decide_eq_true hjeq
    intro hdij
    apply h1
    rw [hdij]
    exact h2
  · intro i hi
    rw [List.countP_map]
    have hvlt : group_to_fold rows (min n_splits (unique_districts rows).length)
        ((rows.getD i default).district) < min n_splits (unique_districts rows).length :=
      group_to_fold_lt rows _ (by omega) _
    refine (List.countP_congr (q := fun f =>
        f == group_to_fold rows (min n_splits (unique_districts rows).length)
          ((rows.getD i default).district)) ?_).trans ?_
    · intro f _hf
      simp only [Function.comp_apply, decide_eq_true_eq, beq_iff_eq, List.mem_filter,
        List.mem_range]
      constructor
      · rintro ⟨_, h2⟩
        exact h2.symm
      · intro h
        exact ⟨hi, h.symm⟩
    · exact List.count_eq_one_of_mem (List.nodup_range _) (List.mem_range.mpr hvlt)
  · intro p hp
    rcases List.mem_map.mp hp with ⟨f, hf, rfl⟩
    have hfk : f < min n_splits (unique_districts rows).length := List.mem_range.mp hf
    obtain ⟨g, hg, hfold⟩ := exists_group_with_fold rows _ (min_le_right _ _) f hfk
    have hg4 : g ∈ rows.map Row.district := (mem_groups_by_weight_iff rows g).mp hg
    rcases List.mem_iff_getElem.mp hg4 with ⟨ri, hri, hval⟩
    rw [List.length_map] at hri
    rw [List.getElem_map] at hval
    intro hempty
    have hmem : ri ∈ (List.range rows.length).filter
        (fun i => decide (group_to_fold rows
          (min n_splits (unique_districts rows).length)
          ((rows.getD i default).district) = f)) := by
      apply List.mem_filter.mpr
      refine ⟨List.mem_range.mpr hri, ?_⟩
      rw [List.getD_eq_getElem _ _ hri, hval, hfold]
      exact decide_eq_true rfl
    have h2 : (List.range rows.length).filter
        (fun i => decide (group_to_fold rows
          (min n_splits (unique_districts rows).length)
          ((rows.getD i default).district) = f)) = [] := hempty
    rw [h2] at hmem
    exact absurd hmem (List.not_mem_nil _)

/-- Witness: `spatial_cv_group_disjoint` at the 3-row, 2-district table
`dfC5` with n_splits = 5. -/
theorem spatial_cv_group_disjoint_witness :
    2 ≤ 5 ∧ 2 ≤ (unique_districts dfC5.rows).length ∧
    (∃ fs, spatial_folds dfC5.rows 5 = some fs ∧
      fs.length = min 5 (unique_districts dfC5.rows).length ∧
      (∀ p ∈ fs, ∀ i ∈ p.1, ∀ j ∈ p.2,
        (dfC5.rows.getD i default).district ≠ (dfC5.rows.getD j default).district) ∧
      (∀ i, i < dfC5.rows.length → fs.countP (fun p => decide (i ∈ p.2)) = 1) ∧
      (∀ p ∈ fs, p.2 ≠ [])) :=
  ⟨by decide, by decide, spatial_cv_group_disjoint dfC5.rows 5 (by decide) (by decide)⟩
